import Mathlib

/-!
# c9s AI providers: a shallow embedding of `internal/ai` and `internal/config/ai.go`

Go strings are `String`, Go `int` is `Int` (no arithmetic is done on it here, only
comparisons with zero and with `http.StatusOK`), a Go `(T, error)` result is
`Except String T` where the string is the text of the error (`err.Error()`), and the
`Provider` interface with its three implementations is a sum type.

What the Go standard library does is taken as a parameter of the functions that call it:
* the process environment read by `os.Getenv` is an `Env`;
* the network round trip (`http.NewRequest`, `httpClient.Do`, `io.ReadAll`) is a function
  from the request that was built to an `HTTPOutcome`;
* `json.Unmarshal` into a given struct is a function from the body text to
  `Except String` of that struct.
`json.Marshal` cannot fail on the request structs used here (strings, ints and slices of
structs of strings), so its error branch is not represented.
-/

set_option autoImplicit false

namespace C9s

/-! ## `internal/ai/provider.go`: shared types -/

/-- The Go type `ProviderType`, a named string type. -/
abbrev ProviderType := String

/-- Anthropic Claude. -/
def ProviderClaude : ProviderType := "claude"

/-- OpenAI GPT models. -/
def ProviderOpenAI : ProviderType := "openai"

/-- Local Ollama models. -/
def ProviderOllama : ProviderType := "ollama"

/-- A chat message. -/
structure Message where
  Role : String
  Content : String
  deriving DecidableEq, Repr

/-- An AI response. -/
structure Response where
  Content : String
  Model : String
  InputTokens : Int
  OutputTokens : Int
  deriving DecidableEq, Repr

/-- Configuration for creating a provider. The Go field `Type` is spelled `Typ`, since
`Type` is reserved in Lean. -/
structure ProviderConfig where
  Typ : ProviderType
  APIKey : String
  Model : String
  MaxTokens : Int
  BaseURL : String
  deriving DecidableEq, Repr

/-! ## The standard library, as far as the adapters use it -/

/-- The part of `http.Client` the constructors set: the timeout, in seconds. -/
structure HTTPClient where
  Timeout : Nat
  deriving DecidableEq, Repr

/-- An outbound request as the adapter builds it: method, URL, the headers in the order
they are set, and the body before `json.Marshal`. -/
structure HTTPRequest (β : Type) where
  Method : String
  URL : String
  Header : List (String × String)
  Body : β

/-- What the calls `http.NewRequest`, `httpClient.Do` and `io.ReadAll` come to for one
request: the first of them that fails, with the text of its error, or the status code and
body that were read. -/
inductive HTTPOutcome where
  | newRequestErr (err : String)
  | doErr (err : String)
  | readErr (err : String)
  | response (StatusCode : Int) (respBody : String)
  deriving DecidableEq, Repr

/-- The constant `http.StatusOK`. -/
def StatusOK : Int := 200

/-- The constant `http.MethodPost`. -/
def MethodPost : String := "POST"

/-- The process environment: a variable is either unset or has a value. -/
abbrev Env := String → Option String

/-- The function `os.Getenv`: the value of the variable, empty when it is not present. -/
def Getenv (env : Env) (key : String) : String :=
  (env key).getD ""

/-! ## `internal/ai/claude.go` -/

def claudeAPIURL : String := "https://api.anthropic.com/v1/messages"

def claudeAPIVersion : String := "2023-06-01"

/-- The constant `defaultTimeout`, 60 seconds. -/
def defaultTimeout : Nat := 60

def DefaultClaudeModel : String := "claude-sonnet-4-20250514"

def DefaultMaxTokens : Int := 4096

/-- The Claude adapter. -/
structure ClaudeProvider where
  apiKey : String
  model : String
  maxTokens : Int
  httpClient : HTTPClient
  deriving DecidableEq, Repr

/-- Constructor `NewClaudeProvider`. -/
def NewClaudeProvider (apiKey model : String) (maxTokens : Int) : ClaudeProvider :=
  let model := if model = "" then DefaultClaudeModel else model
  let maxTokens := if maxTokens ≤ 0 then DefaultMaxTokens else maxTokens
  { apiKey := apiKey
    model := model
    maxTokens := maxTokens
    httpClient := { Timeout := defaultTimeout } }

/-- Method `(*ClaudeProvider).Name`. -/
def ClaudeProvider.Name (_c : ClaudeProvider) : String := "Claude"

/-- Request body: JSON keys `model`, `max_tokens`, `system` (omitted when empty) and
`messages`. -/
structure claudeRequest where
  Model : String
  MaxTokens : Int
  System : String
  Messages : List Message
  deriving DecidableEq, Repr

/-- One content block of a Claude reply; the Go field `Type` is spelled `Typ`. -/
structure claudeContentBlock where
  Typ : String
  Text : String
  deriving DecidableEq, Repr

/-- The anonymous struct of the field `Usage` of `claudeResponse`. -/
structure claudeUsage where
  InputTokens : Int
  OutputTokens : Int
  deriving DecidableEq, Repr

/-- A decoded Claude success body. -/
structure claudeResponse where
  ID : String
  Typ : String
  Role : String
  Content : List claudeContentBlock
  Model : String
  StopReason : String
  StopSequence : Option String
  Usage : claudeUsage
  deriving DecidableEq, Repr

/-- The anonymous struct of the field `Error` of `claudeErrorResponse`. -/
structure claudeErrorDetail where
  Typ : String
  Message : String
  deriving DecidableEq, Repr

/-- A decoded Claude error body. -/
structure claudeErrorResponse where
  Typ : String
  Error : claudeErrorDetail
  deriving DecidableEq, Repr

/-- The request body built at the top of `(*ClaudeProvider).Send`. -/
def ClaudeProvider.buildRequest (c : ClaudeProvider) (system : String)
    (messages : List Message) : claudeRequest :=
  { Model := c.model
    MaxTokens := c.maxTokens
    System := system
    Messages := messages }

/-- The HTTP request `(*ClaudeProvider).Send` hands to the client. -/
def ClaudeProvider.httpRequest (c : ClaudeProvider) (system : String)
    (messages : List Message) : HTTPRequest claudeRequest :=
  { Method := MethodPost
    URL := claudeAPIURL
    Header := [("Content-Type", "application/json"), ("x-api-key", c.apiKey),
      ("anthropic-version", claudeAPIVersion)]
    Body := c.buildRequest system messages }

/-- The loop "Extract text content" of `(*ClaudeProvider).Send`: `content` starts empty,
the range loop stops at the first block whose type is `text` and takes its text. -/
def claudeExtractText : List claudeContentBlock → String
  | [] => ""
  | block :: rest => if block.Typ = "text" then block.Text else claudeExtractText rest

/-- Method `(*ClaudeProvider).Send`. -/
def ClaudeProvider.Send (c : ClaudeProvider)
    (http : HTTPRequest claudeRequest → HTTPOutcome)
    (unmarshalErr : String → Except String claudeErrorResponse)
    (unmarshal : String → Except String claudeResponse)
    (system : String) (messages : List Message) : Except String Response :=
  match http (c.httpRequest system messages) with
  | .newRequestErr err => .error ("failed to create request: " ++ err)
  | .doErr err => .error ("failed to send request: " ++ err)
  | .readErr err => .error ("failed to read response: " ++ err)
  | .response StatusCode respBody =>
    if StatusCode ≠ StatusOK then
      match unmarshalErr respBody with
      | .error _ =>
        .error ("API error (status " ++ toString StatusCode ++ "): " ++ respBody)
      | .ok errResp =>
        .error ("API error: " ++ errResp.Error.Typ ++ " - " ++ errResp.Error.Message)
    else
      match unmarshal respBody with
      | .error err => .error ("failed to parse response: " ++ err)
      | .ok claudeResp =>
        .ok { Content := claudeExtractText claudeResp.Content
              Model := claudeResp.Model
              InputTokens := claudeResp.Usage.InputTokens
              OutputTokens := claudeResp.Usage.OutputTokens }

/-! ## `internal/ai/openai.go` -/

def openAIAPIURL : String := "https://api.openai.com/v1/chat/completions"

def DefaultOpenAIModel : String := "gpt-4o"

/-- The OpenAI adapter. -/
structure OpenAIProvider where
  apiKey : String
  model : String
  maxTokens : Int
  baseURL : String
  httpClient : HTTPClient
  deriving DecidableEq, Repr

/-- Constructor `NewOpenAIProvider`. -/
def NewOpenAIProvider (apiKey model : String) (maxTokens : Int) (baseURL : String) :
    OpenAIProvider :=
  let model := if model = "" then DefaultOpenAIModel else model
  let maxTokens := if maxTokens ≤ 0 then DefaultMaxTokens else maxTokens
  let baseURL := if baseURL = "" then openAIAPIURL else baseURL
  { apiKey := apiKey
    model := model
    maxTokens := maxTokens
    baseURL := baseURL
    httpClient := { Timeout := defaultTimeout } }

/-- Method `(*OpenAIProvider).Name`. -/
def OpenAIProvider.Name (_o : OpenAIProvider) : String := "OpenAI"

/-- One entry of the `messages` array of an OpenAI request. -/
structure openAIMessage where
  Role : String
  Content : String
  deriving DecidableEq, Repr

/-- Request body: JSON keys `model`, `messages` and `max_tokens` (omitted when zero). -/
structure openAIRequest where
  Model : String
  Messages : List openAIMessage
  MaxTokens : Int
  deriving DecidableEq, Repr

/-- The anonymous struct of the field `Message` of `openAIChoice`. -/
structure openAIChoiceMessage where
  Role : String
  Content : String
  deriving DecidableEq, Repr

/-- One completion choice. -/
structure openAIChoice where
  Index : Int
  Message : openAIChoiceMessage
  FinishReason : String
  deriving DecidableEq, Repr

/-- The anonymous struct of the field `Usage` of `openAIResponse`. -/
structure openAIUsage where
  PromptTokens : Int
  CompletionTokens : Int
  TotalTokens : Int
  deriving DecidableEq, Repr

/-- A decoded OpenAI success body. -/
structure openAIResponse where
  ID : String
  Object : String
  Created : Int
  Model : String
  Choices : List openAIChoice
  Usage : openAIUsage
  deriving DecidableEq, Repr

/-- The anonymous struct of the field `Error` of `openAIErrorResponse`. -/
structure openAIErrorDetail where
  Message : String
  Typ : String
  Code : String
  deriving DecidableEq, Repr

/-- A decoded OpenAI error body. -/
structure openAIErrorResponse where
  Error : openAIErrorDetail
  deriving DecidableEq, Repr

/-- The message array built at the top of `(*OpenAIProvider).Send`: it starts empty, the
system message is appended when `system` is not empty, then the range loop appends one
converted entry per input message. -/
def OpenAIProvider.buildMessages (system : String) (messages : List Message) :
    List openAIMessage :=
  let openAIMessages : List openAIMessage := []
  let openAIMessages :=
    if system ≠ "" then openAIMessages ++ [{ Role := "system", Content := system }]
    else openAIMessages
  messages.foldl
    (fun acc msg => acc ++ [{ Role := msg.Role, Content := msg.Content }]) openAIMessages

/-- The request body of `(*OpenAIProvider).Send`. -/
def OpenAIProvider.buildRequest (o : OpenAIProvider) (system : String)
    (messages : List Message) : openAIRequest :=
  { Model := o.model
    Messages := OpenAIProvider.buildMessages system messages
    MaxTokens := o.maxTokens }

/-- The HTTP request `(*OpenAIProvider).Send` hands to the client. -/
def OpenAIProvider.httpRequest (o : OpenAIProvider) (system : String)
    (messages : List Message) : HTTPRequest openAIRequest :=
  { Method := MethodPost
    URL := o.baseURL
    Header := [("Content-Type", "application/json"), ("Authorization", "Bearer " ++ o.apiKey)]
    Body := o.buildRequest system messages }

/-- The content taken from a decoded OpenAI body: empty unless `len(Choices) > 0`, then
`Choices[0].Message.Content`. -/
def openAIExtractContent (choices : List openAIChoice) : String :=
  if h : 0 < choices.length then (choices.get ⟨0, h⟩).Message.Content else ""

/-- Method `(*OpenAIProvider).Send`. -/
def OpenAIProvider.Send (o : OpenAIProvider)
    (http : HTTPRequest openAIRequest → HTTPOutcome)
    (unmarshalErr : String → Except String openAIErrorResponse)
    (unmarshal : String → Except String openAIResponse)
    (system : String) (messages : List Message) : Except String Response :=
  match http (o.httpRequest system messages) with
  | .newRequestErr err => .error ("failed to create request: " ++ err)
  | .doErr err => .error ("failed to send request: " ++ err)
  | .readErr err => .error ("failed to read response: " ++ err)
  | .response StatusCode respBody =>
    if StatusCode ≠ StatusOK then
      match unmarshalErr respBody with
      | .error _ =>
        .error ("API error (status " ++ toString StatusCode ++ "): " ++ respBody)
      | .ok errResp =>
        .error ("API error: " ++ errResp.Error.Typ ++ " - " ++ errResp.Error.Message)
    else
      match unmarshal respBody with
      | .error err => .error ("failed to parse response: " ++ err)
      | .ok openAIResp =>
        .ok { Content := openAIExtractContent openAIResp.Choices
              Model := openAIResp.Model
              InputTokens := openAIResp.Usage.PromptTokens
              OutputTokens := openAIResp.Usage.CompletionTokens }

/-! ## `internal/ai/ollama.go` -/

def DefaultOllamaModel : String := "llama3.2"

def DefaultOllamaURL : String := "http://localhost:11434"

/-- The Ollama adapter. -/
structure OllamaProvider where
  model : String
  baseURL : String
  httpClient : HTTPClient
  deriving DecidableEq, Repr

/-- Constructor `NewOllamaProvider`; the timeout is twice the default one. -/
def NewOllamaProvider (model baseURL : String) : OllamaProvider :=
  let model := if model = "" then DefaultOllamaModel else model
  let baseURL := if baseURL = "" then DefaultOllamaURL else baseURL
  { model := model
    baseURL := baseURL
    httpClient := { Timeout := defaultTimeout * 2 } }

/-- Method `(*OllamaProvider).Name`. -/
def OllamaProvider.Name (_o : OllamaProvider) : String := "Ollama"

/-- One entry of the `messages` array of an Ollama request. -/
structure ollamaMessage where
  Role : String
  Content : String
  deriving DecidableEq, Repr

/-- Request body: JSON keys `model`, `messages` and `stream`. -/
structure ollamaRequest where
  Model : String
  Messages : List ollamaMessage
  Stream : Bool
  deriving DecidableEq, Repr

/-- The anonymous struct of the field `Message` of `ollamaResponse`. -/
structure ollamaResponseMessage where
  Role : String
  Content : String
  deriving DecidableEq, Repr

/-- A decoded Ollama success body. -/
structure ollamaResponse where
  Model : String
  Message : ollamaResponseMessage
  Done : Bool
  TotalDuration : Int
  PromptEvalCount : Int
  EvalCount : Int
  deriving DecidableEq, Repr

/-- The message array built at the top of `(*OllamaProvider).Send`, as in the OpenAI
adapter. -/
def OllamaProvider.buildMessages (system : String) (messages : List Message) :
    List ollamaMessage :=
  let ollamaMessages : List ollamaMessage := []
  let ollamaMessages :=
    if system ≠ "" then ollamaMessages ++ [{ Role := "system", Content := system }]
    else ollamaMessages
  messages.foldl
    (fun acc msg => acc ++ [{ Role := msg.Role, Content := msg.Content }]) ollamaMessages

/-- The request body of `(*OllamaProvider).Send`. -/
def OllamaProvider.buildRequest (o : OllamaProvider) (system : String)
    (messages : List Message) : ollamaRequest :=
  { Model := o.model
    Messages := OllamaProvider.buildMessages system messages
    Stream := false }

/-- The HTTP request `(*OllamaProvider).Send` hands to the client. -/
def OllamaProvider.httpRequest (o : OllamaProvider) (system : String)
    (messages : List Message) : HTTPRequest ollamaRequest :=
  { Method := MethodPost
    URL := o.baseURL ++ "/api/chat"
    Header := [("Content-Type", "application/json")]
    Body := o.buildRequest system messages }

/-- Method `(*OllamaProvider).Send`. -/
def OllamaProvider.Send (o : OllamaProvider)
    (http : HTTPRequest ollamaRequest → HTTPOutcome)
    (unmarshal : String → Except String ollamaResponse)
    (system : String) (messages : List Message) : Except String Response :=
  match http (o.httpRequest system messages) with
  | .newRequestErr err => .error ("failed to create request: " ++ err)
  | .doErr err => .error ("failed to send request (is Ollama running?): " ++ err)
  | .readErr err => .error ("failed to read response: " ++ err)
  | .response StatusCode respBody =>
    if StatusCode ≠ StatusOK then
      .error ("API error (status " ++ toString StatusCode ++ "): " ++ respBody)
    else
      match unmarshal respBody with
      | .error err => .error ("failed to parse response: " ++ err)
      | .ok ollamaResp =>
        .ok { Content := ollamaResp.Message.Content
              Model := ollamaResp.Model
              InputTokens := ollamaResp.PromptEvalCount
              OutputTokens := ollamaResp.EvalCount }

/-! ## `internal/ai/provider.go`: the factory -/

/-- The interface `Provider`, implemented by exactly the three adapters. -/
inductive Provider where
  | claude (p : ClaudeProvider)
  | openAI (p : OpenAIProvider)
  | ollama (p : OllamaProvider)
  deriving DecidableEq, Repr

/-- Method `Name` of the interface. -/
def Provider.Name : Provider → String
  | .claude p => p.Name
  | .openAI p => p.Name
  | .ollama p => p.Name

/-- Function `NewProvider`: a switch on `cfg.Type`. -/
def NewProvider (cfg : ProviderConfig) : Except String Provider :=
  if cfg.Typ = ProviderClaude then
    .ok (.claude (NewClaudeProvider cfg.APIKey cfg.Model cfg.MaxTokens))
  else if cfg.Typ = ProviderOpenAI then
    .ok (.openAI (NewOpenAIProvider cfg.APIKey cfg.Model cfg.MaxTokens cfg.BaseURL))
  else if cfg.Typ = ProviderOllama then
    let baseURL := cfg.BaseURL
    let baseURL := if baseURL = "" then "http://localhost:11434" else baseURL
    .ok (.ollama (NewOllamaProvider cfg.Model baseURL))
  else
    .error ("unknown provider type: " ++ cfg.Typ)

/-! ## `internal/config/ai.go` -/

/-- AI configuration options. -/
structure AI where
  Enabled : Bool
  Provider : String
  APIKey : String
  APIKeyEnv : String
  Model : String
  MaxTokens : Int
  BaseURL : String
  deriving DecidableEq, Repr

/-- Function `NewAI`: every field at its zero value. -/
def NewAI : AI :=
  { Enabled := false, Provider := "", APIKey := "", APIKeyEnv := "", Model := "",
    MaxTokens := 0, BaseURL := "" }

/-- Method `(*AI).GetProvider`. -/
def AI.GetProvider (a : AI) : ProviderType :=
  if a.Provider = "openai" ∨ a.Provider = "gpt" ∨ a.Provider = "chatgpt" then
    ProviderOpenAI
  else if a.Provider = "ollama" ∨ a.Provider = "local" then
    ProviderOllama
  else
    ProviderClaude

/-- Method `(*AI).GetAPIKey`; the last `return ""` is the one after the switch. -/
def AI.GetAPIKey (a : AI) (env : Env) : String :=
  if a.APIKey ≠ "" then a.APIKey
  else if a.APIKeyEnv ≠ "" then Getenv env a.APIKeyEnv
  else if a.GetProvider = ProviderOpenAI then Getenv env "OPENAI_API_KEY"
  else if a.GetProvider = ProviderClaude then Getenv env "ANTHROPIC_API_KEY"
  else if a.GetProvider = ProviderOllama then ""
  else ""

/-- Method `(*AI).GetModel`. -/
def AI.GetModel (a : AI) : String :=
  if a.Model ≠ "" then a.Model
  else if a.GetProvider = ProviderOpenAI then DefaultOpenAIModel
  else if a.GetProvider = ProviderOllama then DefaultOllamaModel
  else DefaultClaudeModel

/-- Method `(*AI).GetMaxTokens`. -/
def AI.GetMaxTokens (a : AI) : Int :=
  if a.MaxTokens > 0 then a.MaxTokens else DefaultMaxTokens

/-- Method `(*AI).GetBaseURL`. -/
def AI.GetBaseURL (a : AI) : String :=
  a.BaseURL

/-- Method `(*AI).CreateProvider`. -/
def AI.CreateProvider (a : AI) (env : Env) : Except String C9s.Provider :=
  NewProvider
    { Typ := a.GetProvider
      APIKey := a.GetAPIKey env
      Model := a.GetModel
      MaxTokens := a.GetMaxTokens
      BaseURL := a.GetBaseURL }

/-! ## `internal/view/ai_chat.go`

Of the view, the fields that hold the session are represented: the transcript, the prompt
context, the adapter handle, the provider name and the text of the chat history widget.
The configuration `c.app.Config.K9s.AI` belongs to the application and is an argument of
the functions that read it. Widget layout, colours, key bindings and the scroll position
are left out. A closure handed to `QueueUpdateDraw` is an `Update`, applied later to the
state the view has at that moment; starting a goroutine with `go c.sendMessage()` is
counted in `Dispatch.sends`. -/

/-- Modelled from the spec: the type `ai.K8sContext` of the prompt-builder collaborator,
declared outside the files at hand; its five text fields are the ones `ai_chat.go` reads
and writes (cluster name, context name, namespace, resource-view type, selected
resource). -/
structure K8sContext where
  ClusterName : String
  ContextName : String
  Namespace : String
  ResourceType : String
  SelectedResource : String
  deriving DecidableEq, Repr

/-- Everything the adapters need from outside the program: one round trip and the JSON
decoders per adapter. -/
structure Backend where
  claudeHTTP : HTTPRequest claudeRequest → HTTPOutcome
  claudeUnmarshalErr : String → Except String claudeErrorResponse
  claudeUnmarshal : String → Except String claudeResponse
  openAIHTTP : HTTPRequest openAIRequest → HTTPOutcome
  openAIUnmarshalErr : String → Except String openAIErrorResponse
  openAIUnmarshal : String → Except String openAIResponse
  ollamaHTTP : HTTPRequest ollamaRequest → HTTPOutcome
  ollamaUnmarshal : String → Except String ollamaResponse

/-- Method `Send` of the interface `Provider`: dynamic dispatch to the adapter held. -/
def Provider.Send (w : Backend) : Provider → String → List Message → Except String Response
  | .claude p, system, messages =>
    p.Send w.claudeHTTP w.claudeUnmarshalErr w.claudeUnmarshal system messages
  | .openAI p, system, messages =>
    p.Send w.openAIHTTP w.openAIUnmarshalErr w.openAIUnmarshal system messages
  | .ollama p, system, messages =>
    p.Send w.ollamaHTTP w.ollamaUnmarshal system messages

/-- The session fields of the view `AIChat`; a nil `provider` is `none`. -/
structure AIChat where
  chatHistory : String
  messages : List Message
  k8sContext : K8sContext
  provider : Option Provider
  providerName : String
  deriving DecidableEq, Repr

/-- A state change together with the number of `go c.sendMessage()` statements run. -/
structure Dispatch where
  chat : AIChat
  sends : Nat
  deriving DecidableEq, Repr

/-- Function `NewAIChat`; the prompt context, which `buildK8sContext` reads from the
application, is an argument. -/
def NewAIChat (k8sContext : K8sContext) (question : String) : AIChat :=
  let c : AIChat :=
    { chatHistory := "", messages := [], k8sContext := k8sContext, provider := none,
      providerName := "" }
  if question ≠ "" then
    { c with messages := c.messages ++ [{ Role := "user", Content := question }] }
  else c

/-- Method `(*AIChat).Init`: the provider is created from the configuration, the name is
`Error` when that fails, and a send is started when the transcript is not empty. -/
def AIChat.Init (c : AIChat) (cfg : AI) (env : Env) : Dispatch :=
  let c : AIChat :=
    match cfg.CreateProvider env with
    | .error _ => { c with provider := none, providerName := "Error" }
    | .ok p => { c with provider := some p, providerName := p.Name }
  { chat := c, sends := if c.messages.length > 0 then 1 else 0 }

/-- The text `(*AIChat).updateChatDisplay` builds: one paragraph per message with role
`user` or `assistant`, messages with another role are passed over. -/
def renderMessages (providerName : String) (messages : List Message) : String :=
  messages.foldl
    (fun sb msg =>
      if msg.Role = "user" then
        sb ++ "[aqua::b]You:[white:-:-] " ++ msg.Content ++ "\n\n"
      else if msg.Role = "assistant" then
        sb ++ ("[green::b]" ++ providerName ++ ":[white:-:-] ") ++ msg.Content ++ "\n\n"
      else sb)
    ""

/-- Method `(*AIChat).updateChatDisplay`. -/
def AIChat.updateChatDisplay (c : AIChat) : AIChat :=
  { c with chatHistory := renderMessages c.providerName c.messages }

/-- The two shapes of closure `sendMessage` hands to `QueueUpdateDraw`: append an
assistant message with the given content and redraw, or show the loading indicator. -/
inductive Update where
  | appendAssistant (content : String)
  | thinking
  deriving DecidableEq, Repr

/-- What a queued closure does to the view when the update loop runs it. -/
def Update.apply : Update → AIChat → AIChat
  | .appendAssistant content, c =>
    AIChat.updateChatDisplay
      { c with messages := c.messages ++ [{ Role := "assistant", Content := content }] }
  | .thinking, c =>
    { c with chatHistory := c.chatHistory ++ "[gray]Thinking...[white]\n" }

/-- The update loop running queued closures in the order they were queued. -/
def runUpdates (updates : List Update) (c : AIChat) : AIChat :=
  updates.foldl (fun c u => u.apply c) c

/-- What one run of `sendMessage` does besides reading: the closures it queues, in order,
and the arguments of each call of `c.provider.Send`. -/
structure SendTrace where
  updates : List Update
  sendCalls : List (String × List Message)
  deriving DecidableEq, Repr

/-- Method `(*AIChat).sendMessage`. `BuildSystemPrompt` is the prompt builder of package
`ai`, declared outside the files at hand. The key check nested in the provider-type check
is one conjunction here, and the hint, computed inside the queued closure from the
captured provider type, is computed where the closure is built. -/
def AIChat.sendMessage (c : AIChat) (cfg : AI) (env : Env)
    (BuildSystemPrompt : K8sContext → Except String String) (w : Backend) : SendTrace :=
  match c.provider with
  | none =>
    { updates := [.appendAssistant
        "[red]Error: Failed to initialize AI provider. Check your configuration."]
      sendCalls := [] }
  | some provider =>
    let providerType := cfg.GetProvider
    if providerType ≠ ProviderOllama ∧ cfg.GetAPIKey env = "" then
      let hint :=
        if providerType = ProviderOpenAI then
          "Use ':ai set-key <key>' or set OPENAI_API_KEY"
        else
          "Use ':ai set-key <key>' or set ANTHROPIC_API_KEY"
      { updates := [.appendAssistant ("[red]Error: API key not configured. " ++ hint)]
        sendCalls := [] }
    else
      match BuildSystemPrompt c.k8sContext with
      | .error err =>
        { updates := [.thinking, .appendAssistant ("[red]Error building prompt: " ++ err)]
          sendCalls := [] }
      | .ok systemPrompt =>
        match provider.Send w systemPrompt c.messages with
        | .error err =>
          { updates := [.thinking, .appendAssistant ("[red]Error: " ++ err)]
            sendCalls := [(systemPrompt, c.messages)] }
        | .ok resp =>
          { updates := [.thinking, .appendAssistant resp.Content]
            sendCalls := [(systemPrompt, c.messages)] }

/-- Method `(*AIChat).clearCmd`. -/
def AIChat.clearCmd (c : AIChat) : AIChat :=
  { c with messages := [], chatHistory := "" }

/-- Method `(*AIChat).BufferCompleted`; the second argument is not used. -/
def AIChat.BufferCompleted (c : AIChat) (text : String) : Dispatch :=
  if text = "" then { chat := c, sends := 0 }
  else
    { chat :=
        AIChat.updateChatDisplay
          { c with messages := c.messages ++ [{ Role := "user", Content := text }] }
      sends := 1 }

/-! ## Vocabulary of the specification -/

/-- The first non-empty entry of a list of candidates, empty when there is none. -/
def firstNonEmpty : List String → String
  | [] => ""
  | x :: xs => if x ≠ "" then x else firstNonEmpty xs

/-- The default environment variable of a provider as the specification names it:
`ANTHROPIC_API_KEY` for Claude, `OPENAI_API_KEY` for OpenAI, none for Ollama. -/
def defaultKeyVar (t : ProviderType) : Option String :=
  if t = ProviderClaude then some "ANTHROPIC_API_KEY"
  else if t = ProviderOpenAI then some "OPENAI_API_KEY"
  else none

/-- The value of the environment variable named by `apiKeyEnv`; no variable is named when
the option is empty. -/
def namedKeyValue (a : AI) (env : Env) : String :=
  if a.APIKeyEnv = "" then "" else Getenv env a.APIKeyEnv

/-- The value of the default environment variable of the configured provider. -/
def defaultKeyValue (a : AI) (env : Env) : String :=
  match defaultKeyVar a.GetProvider with
  | some v => Getenv env v
  | none => ""

/-- The three candidates of the credential precedence rule, in the order stated. -/
def apiKeyCandidates (a : AI) (env : Env) : List String :=
  [a.APIKey, namedKeyValue a env, defaultKeyValue a env]

/-- The text `t` occurs in the text `s`. -/
def Contains (s t : String) : Prop :=
  t.data <:+: s.data

/-! ## Concrete inputs -/

/-- A configuration that names the variable `MY_KEY` and sets nothing else. -/
def keyEnvOnlyConfig : AI :=
  { NewAI with APIKeyEnv := "MY_KEY" }

/-- An environment in which only `ANTHROPIC_API_KEY` is set. -/
def anthropicOnlyEnv : Env :=
  fun key => if key = "ANTHROPIC_API_KEY" then some "k" else none

/-- A Claude adapter built with every default. -/
def demoClaude : ClaudeProvider :=
  NewClaudeProvider "key" "" 0

/-- An OpenAI adapter built with every default. -/
def demoOpenAI : OpenAIProvider :=
  NewOpenAIProvider "key" "" 0 ""

/-- An Ollama adapter built with every default. -/
def demoOllama : OllamaProvider :=
  NewOllamaProvider "" ""

/-- The decoded Claude success body of the specification: one text block `hi`, model `m`,
usage 3 and 5. -/
def hiBody : claudeResponse :=
  { ID := "", Typ := "", Role := "", Content := [{ Typ := "text", Text := "hi" }],
    Model := "m", StopReason := "", StopSequence := none,
    Usage := { InputTokens := 3, OutputTokens := 5 } }

/-- A decoded OpenAI success body with an empty `choices` array. -/
def noChoicesBody : openAIResponse :=
  { ID := "", Object := "", Created := 0, Model := "gpt-4o", Choices := [],
    Usage := { PromptTokens := 7, CompletionTokens := 0, TotalTokens := 7 } }

/-- A decoded OpenAI error body with type `t` and message `m`. -/
def demoOpenAIError : openAIErrorResponse :=
  { Error := { Message := "m", Typ := "t", Code := "" } }

/-- What decoding a Claude success body into the error envelope gives: the top-level
type is read, and both fields of `Error` stay empty since the body has no `error` key. -/
def emptyClaudeError : claudeErrorResponse :=
  { Typ := "message", Error := { Typ := "", Message := "" } }

/-- A decoded Ollama success body. -/
def demoOllamaBody : ollamaResponse :=
  { Model := "llama3.2", Message := { Role := "assistant", Content := "hello" }, Done := true,
    TotalDuration := 1, PromptEvalCount := 2, EvalCount := 4 }

/-- A text is blank when it is empty or consists only of whitespace. -/
def isBlank (text : String) : Bool :=
  text.data.all Char.isWhitespace

/-- A session: the view after `Init` under some configuration and environment, with any
transcript and any displayed text. The operations on a view change no other field. -/
def AIChat.session (c0 : AIChat) (cfg0 : AI) (env0 : Env) (messages : List Message)
    (chatHistory : String) : AIChat :=
  { (c0.Init cfg0 env0).chat with messages := messages, chatHistory := chatHistory }

/-- The text appended when the view holds no adapter. -/
def failedInitText : String :=
  "[red]Error: Failed to initialize AI provider. Check your configuration."

/-- An environment with no variable set. -/
def emptyEnv : Env :=
  fun _ => none

/-- A prompt context with only the namespace set. -/
def demoContext : K8sContext :=
  { ClusterName := "", ContextName := "", Namespace := "default", ResourceType := "",
    SelectedResource := "" }

/-- A prompt builder that always succeeds. -/
def demoBuild : K8sContext → Except String String :=
  fun ctx => .ok ("namespace " ++ ctx.Namespace)

/-- A backend on which every round trip ends with status 200 and every body decodes. -/
def demoBackend : Backend :=
  { claudeHTTP := fun _ => .response StatusOK "body"
    claudeUnmarshalErr := fun _ => .ok emptyClaudeError
    claudeUnmarshal := fun _ => .ok hiBody
    openAIHTTP := fun _ => .response StatusOK "body"
    openAIUnmarshalErr := fun _ => .ok demoOpenAIError
    openAIUnmarshal := fun _ => .ok noChoicesBody
    ollamaHTTP := fun _ => .response StatusOK "body"
    ollamaUnmarshal := fun _ => .ok demoOllamaBody }

/-- A view opened with the question `why`. -/
def demoChat : AIChat :=
  NewAIChat demoContext "why"

/-! ## Credential resolution -/

theorem getenv_anthropicOnly_named : Getenv anthropicOnlyEnv "MY_KEY" = "" := by
  simp [Getenv, anthropicOnlyEnv]

theorem getenv_anthropicOnly_default : Getenv anthropicOnlyEnv "ANTHROPIC_API_KEY" = "k" := by
  simp [Getenv, anthropicOnlyEnv]

theorem ite_empty_self (x : String) : (if x = "" then "" else x) = x := by
  split_ifs with h
  · exact h.symm
  · rfl

theorem getProvider_cases (a : AI) :
    a.GetProvider = ProviderOpenAI ∨ a.GetProvider = ProviderOllama ∨
      a.GetProvider = ProviderClaude := by
  unfold AI.GetProvider
  split_ifs <;> simp

/-- C1, counterexample: with no explicit key, `apiKeyEnv` naming the unset variable
`MY_KEY`, the Claude provider and `ANTHROPIC_API_KEY` set to `k`, `GetAPIKey` returns the
empty string, although the first non-empty candidate of the stated rule is `k` and so not
every candidate is empty. -/
theorem getAPIKey_skips_default_when_keyEnv_named :
    keyEnvOnlyConfig.GetAPIKey anthropicOnlyEnv = "" ∧
      firstNonEmpty (apiKeyCandidates keyEnvOnlyConfig anthropicOnlyEnv) = "k" ∧
      ¬ (∀ x ∈ apiKeyCandidates keyEnvOnlyConfig anthropicOnlyEnv, x = "") := by
  have h1 : keyEnvOnlyConfig.GetAPIKey anthropicOnlyEnv = "" := by
    simp [AI.GetAPIKey, keyEnvOnlyConfig, NewAI, getenv_anthropicOnly_named]
  have h2 : apiKeyCandidates keyEnvOnlyConfig anthropicOnlyEnv = ["", "", "k"] := by
    simp [apiKeyCandidates, namedKeyValue, defaultKeyValue, defaultKeyVar, AI.GetProvider,
      keyEnvOnlyConfig, NewAI, ProviderClaude, getenv_anthropicOnly_named,
      getenv_anthropicOnly_default]
  refine ⟨h1, ?_, ?_⟩
  · rw [h2]; simp [firstNonEmpty]
  · rw [h2]; simp

/-- C1, amended: `GetAPIKey` returns the first non-empty value among the explicit
`apiKey`, the value of the variable named by `apiKeyEnv`, and the default variable of the
provider, where the provider default is a candidate only when `apiKeyEnv` is empty. It is
empty exactly when each of these candidates is empty. -/
theorem getAPIKey_precedence (a : AI) (env : Env) :
    a.GetAPIKey env =
        firstNonEmpty [a.APIKey, namedKeyValue a env,
          if a.APIKeyEnv = "" then defaultKeyValue a env else ""] ∧
      (a.GetAPIKey env = "" ↔
        a.APIKey = "" ∧ namedKeyValue a env = "" ∧
          (if a.APIKeyEnv = "" then defaultKeyValue a env else "") = "") := by
  have hp := getProvider_cases a
  have hkey : a.GetAPIKey env =
      firstNonEmpty [a.APIKey, namedKeyValue a env,
        if a.APIKeyEnv = "" then defaultKeyValue a env else ""] := by
    unfold AI.GetAPIKey namedKeyValue defaultKeyValue defaultKeyVar firstNonEmpty
      firstNonEmpty firstNonEmpty firstNonEmpty
    by_cases h1 : a.APIKey = ""
    · by_cases h2 : a.APIKeyEnv = ""
      · rcases hp with hp | hp | hp <;>
          simp [h1, h2, hp, ProviderOpenAI, ProviderClaude, ProviderOllama, ite_empty_self]
      · by_cases h3 : Getenv env a.APIKeyEnv = "" <;> simp [h1, h2, h3]
    · simp [h1]
  refine ⟨hkey, ?_⟩
  rw [hkey]
  unfold firstNonEmpty firstNonEmpty firstNonEmpty firstNonEmpty
  by_cases h1 : a.APIKey = ""
  · by_cases h2 : namedKeyValue a env = ""
    · by_cases h3 : (if a.APIKeyEnv = "" then defaultKeyValue a env else "") = "" <;>
        simp [h1, h2, h3]
    · simp [h1, h2]
  · simp [h1]

/-! ## Outgoing requests -/

theorem foldl_append_singleton {α β : Type} (f : α → β) (xs : List α) (init : List β) :
    xs.foldl (fun acc x => acc ++ [f x]) init = init ++ xs.map f := by
  induction xs generalizing init with
  | nil => simp
  | cons x rest ih => simp [List.foldl_cons, ih, List.append_assoc]

theorem openAI_buildMessages_eq (system : String) (messages : List Message) :
    OpenAIProvider.buildMessages system messages =
      (if system = "" then [] else [({ Role := "system", Content := system } : openAIMessage)])
        ++ messages.map (fun msg => ({ Role := msg.Role, Content := msg.Content } : openAIMessage)) := by
  unfold OpenAIProvider.buildMessages
  simp only [foldl_append_singleton (fun msg : Message =>
    ({ Role := msg.Role, Content := msg.Content } : openAIMessage))]
  by_cases h : system = "" <;> simp [h]

theorem ollama_buildMessages_eq (system : String) (messages : List Message) :
    OllamaProvider.buildMessages system messages =
      (if system = "" then [] else [({ Role := "system", Content := system } : ollamaMessage)])
        ++ messages.map (fun msg => ({ Role := msg.Role, Content := msg.Content } : ollamaMessage)) := by
  unfold OllamaProvider.buildMessages
  simp only [foldl_append_singleton (fun msg : Message =>
    ({ Role := msg.Role, Content := msg.Content } : ollamaMessage))]
  by_cases h : system = "" <;> simp [h]

/-- C2: the request the Claude adapter hands to the HTTP client carries the system prompt
in its `System` field, and its `Messages` are exactly the input history: the same list, so
the same length and the same entry at every index, with nothing added for the system
prompt. `Send` consults the transport at this request only. -/
theorem claude_request_keeps_history (c : ClaudeProvider) (system : String)
    (messages : List Message) :
    (c.httpRequest system messages).Body.System = system ∧
      (c.httpRequest system messages).Body.Messages = messages ∧
      (c.httpRequest system messages).Body.Messages.length = messages.length ∧
      (∀ i, (c.httpRequest system messages).Body.Messages.get? i = messages.get? i) ∧
      (∀ http unmarshalErr unmarshal,
        c.Send http unmarshalErr unmarshal system messages =
          c.Send (fun _ => http (c.httpRequest system messages)) unmarshalErr unmarshal
            system messages) := by
  refine ⟨rfl, rfl, rfl, fun _ => rfl, fun _ _ _ => rfl⟩

/-- C3: the message list the OpenAI adapter and the Ollama adapter each send is the input
history mapped entry by entry, in order, preceded by the single entry with role `system`
and the system prompt as content exactly when the system prompt is non-empty; its length
is the length of the history, plus one when the system prompt is non-empty. The history
is an immutable value of the embedding, so it is unchanged. -/
theorem openAI_ollama_messages (o : OpenAIProvider) (l : OllamaProvider) (system : String)
    (messages : List Message) :
    ((o.httpRequest system messages).Body.Messages =
        (if system = "" then []
          else [({ Role := "system", Content := system } : openAIMessage)])
          ++ messages.map
            (fun msg => ({ Role := msg.Role, Content := msg.Content } : openAIMessage)) ∧
      (o.httpRequest system messages).Body.Messages.length =
        messages.length + (if system = "" then 0 else 1)) ∧
    ((l.httpRequest system messages).Body.Messages =
        (if system = "" then []
          else [({ Role := "system", Content := system } : ollamaMessage)])
          ++ messages.map
            (fun msg => ({ Role := msg.Role, Content := msg.Content } : ollamaMessage)) ∧
      (l.httpRequest system messages).Body.Messages.length =
        messages.length + (if system = "" then 0 else 1)) := by
  have ho : (o.httpRequest system messages).Body.Messages =
      OpenAIProvider.buildMessages system messages := rfl
  have hl : (l.httpRequest system messages).Body.Messages =
      OllamaProvider.buildMessages system messages := rfl
  rw [ho, hl, openAI_buildMessages_eq, ollama_buildMessages_eq]
  refine ⟨⟨rfl, ?_⟩, ⟨rfl, ?_⟩⟩ <;>
    by_cases h : system = "" <;> simp [h, Nat.add_comm]

/-! ## Success bodies -/

theorem claudeExtractText_eq_find (blocks : List claudeContentBlock) :
    claudeExtractText blocks =
      ((blocks.find? (fun b => b.Typ = "text")).map (fun b => b.Text)).getD "" := by
  induction blocks with
  | nil => rfl
  | cons block rest ih =>
    by_cases h : block.Typ = "text"
    · simp [claudeExtractText, List.find?_cons, h]
    · simp [claudeExtractText, List.find?_cons, h, ih]

theorem claudeExtractText_split (pre post : List claudeContentBlock) (b : claudeContentBlock)
    (hpre : ∀ x ∈ pre, x.Typ ≠ "text") (hb : b.Typ = "text") :
    claudeExtractText (pre ++ b :: post) = b.Text := by
  induction pre with
  | nil => simp [claudeExtractText, hb]
  | cons x rest ih =>
    have hx : x.Typ ≠ "text" := hpre x (List.mem_cons_self _ _)
    have hrest : ∀ y ∈ rest, y.Typ ≠ "text" := fun y hy => hpre y (List.mem_cons_of_mem _ hy)
    simp [claudeExtractText, hx, ih hrest]

theorem claudeExtractText_none (blocks : List claudeContentBlock)
    (h : ∀ x ∈ blocks, x.Typ ≠ "text") : claudeExtractText blocks = "" := by
  induction blocks with
  | nil => rfl
  | cons x rest ih =>
    have hx : x.Typ ≠ "text" := h x (List.mem_cons_self _ _)
    have hrest : ∀ y ∈ rest, y.Typ ≠ "text" := fun y hy => h y (List.mem_cons_of_mem _ hy)
    simp [claudeExtractText, hx, ih hrest]

theorem claude_send_ok (c : ClaudeProvider) (http : HTTPRequest claudeRequest → HTTPOutcome)
    (unmarshalErr : String → Except String claudeErrorResponse)
    (unmarshal : String → Except String claudeResponse)
    (system : String) (messages : List Message) (respBody : String) (r : claudeResponse)
    (hhttp : http (c.httpRequest system messages) = .response StatusOK respBody)
    (hdec : unmarshal respBody = .ok r) :
    c.Send http unmarshalErr unmarshal system messages =
      .ok { Content := claudeExtractText r.Content
            Model := r.Model
            InputTokens := r.Usage.InputTokens
            OutputTokens := r.Usage.OutputTokens } := by
  simp [ClaudeProvider.Send, hhttp, hdec]

theorem openAI_send_ok (o : OpenAIProvider) (http : HTTPRequest openAIRequest → HTTPOutcome)
    (unmarshalErr : String → Except String openAIErrorResponse)
    (unmarshal : String → Except String openAIResponse)
    (system : String) (messages : List Message) (respBody : String) (r : openAIResponse)
    (hhttp : http (o.httpRequest system messages) = .response StatusOK respBody)
    (hdec : unmarshal respBody = .ok r) :
    o.Send http unmarshalErr unmarshal system messages =
      .ok { Content := openAIExtractContent r.Choices
            Model := r.Model
            InputTokens := r.Usage.PromptTokens
            OutputTokens := r.Usage.CompletionTokens } := by
  simp [OpenAIProvider.Send, hhttp, hdec]

theorem ollama_send_ok (o : OllamaProvider) (http : HTTPRequest ollamaRequest → HTTPOutcome)
    (unmarshal : String → Except String ollamaResponse)
    (system : String) (messages : List Message) (respBody : String) (r : ollamaResponse)
    (hhttp : http (o.httpRequest system messages) = .response StatusOK respBody)
    (hdec : unmarshal respBody = .ok r) :
    o.Send http unmarshal system messages =
      .ok { Content := r.Message.Content
            Model := r.Model
            InputTokens := r.PromptEvalCount
            OutputTokens := r.EvalCount } := by
  simp [OllamaProvider.Send, hhttp, hdec]

theorem openAIExtractContent_eq_head (choices : List openAIChoice) :
    openAIExtractContent choices = (choices.head?.map (fun ch => ch.Message.Content)).getD "" := by
  cases choices with
  | nil => rfl
  | cons ch rest => simp [openAIExtractContent]

/-- C4: when the round trip ends with status 200 and the body decodes to `r`, the Claude
adapter returns the Response whose content is the text of the first block of `r` whose
type is `text` (empty when there is none), whose model is the model of `r` and whose token
counts are those of the usage of `r`. Blocks of another type before that block are
skipped and blocks after it are ignored. -/
theorem claude_success_response (c : ClaudeProvider)
    (http : HTTPRequest claudeRequest → HTTPOutcome)
    (unmarshalErr : String → Except String claudeErrorResponse)
    (unmarshal : String → Except String claudeResponse)
    (system : String) (messages : List Message) (respBody : String) (r : claudeResponse)
    (hhttp : http (c.httpRequest system messages) = .response StatusOK respBody)
    (hdec : unmarshal respBody = .ok r) :
    c.Send http unmarshalErr unmarshal system messages =
        .ok { Content :=
                ((r.Content.find? (fun b => b.Typ = "text")).map (fun b => b.Text)).getD ""
              Model := r.Model
              InputTokens := r.Usage.InputTokens
              OutputTokens := r.Usage.OutputTokens } ∧
      (∀ pre b post, r.Content = pre ++ b :: post → (∀ x ∈ pre, x.Typ ≠ "text") →
        b.Typ = "text" →
        ((r.Content.find? (fun b => b.Typ = "text")).map (fun b => b.Text)).getD "" = b.Text) ∧
      ((∀ x ∈ r.Content, x.Typ ≠ "text") →
        ((r.Content.find? (fun b => b.Typ = "text")).map (fun b => b.Text)).getD "" = "") := by
  refine ⟨?_, ?_, ?_⟩
  · rw [claude_send_ok c http unmarshalErr unmarshal system messages respBody r hhttp hdec,
      claudeExtractText_eq_find]
  · intro pre b post hsplit hpre hb
    rw [← claudeExtractText_eq_find, hsplit]
    exact claudeExtractText_split pre post b hpre hb
  · intro hnone
    rw [← claudeExtractText_eq_find]
    exact claudeExtractText_none r.Content hnone

/-- C4, witness: the success body of the specification, one text block `hi`, model `m`,
usage 3 and 5, gives the Response with content `hi`, model `m` and token counts 3 and 5. -/
theorem claude_success_response_witness :
    demoClaude.Send (fun _ => .response StatusOK "body") (fun _ => .error "no envelope")
        (fun _ => .ok hiBody) "" [] =
      .ok { Content := "hi", Model := "m", InputTokens := 3, OutputTokens := 5 } :=
  (claude_success_response demoClaude (fun _ => .response StatusOK "body")
    (fun _ => .error "no envelope") (fun _ => .ok hiBody) "" [] "body" hiBody rfl rfl).1

/-- C5: when the round trip ends with status 200 and the body decodes to `r`, the OpenAI
adapter returns a Response and no error; its content is the message content of the first
element of `choices` when there is one, whatever follows it, and the empty string when
`choices` is empty. -/
theorem openAI_success_response (o : OpenAIProvider)
    (http : HTTPRequest openAIRequest → HTTPOutcome)
    (unmarshalErr : String → Except String openAIErrorResponse)
    (unmarshal : String → Except String openAIResponse)
    (system : String) (messages : List Message) (respBody : String) (r : openAIResponse)
    (hhttp : http (o.httpRequest system messages) = .response StatusOK respBody)
    (hdec : unmarshal respBody = .ok r) :
    o.Send http unmarshalErr unmarshal system messages =
        .ok { Content := (r.Choices.head?.map (fun ch => ch.Message.Content)).getD ""
              Model := r.Model
              InputTokens := r.Usage.PromptTokens
              OutputTokens := r.Usage.CompletionTokens } ∧
      (r.Choices = [] →
        (r.Choices.head?.map (fun ch => ch.Message.Content)).getD "" = "") ∧
      (∀ ch rest, r.Choices = ch :: rest →
        (r.Choices.head?.map (fun ch => ch.Message.Content)).getD "" = ch.Message.Content) := by
  refine ⟨?_, ?_, ?_⟩
  · rw [openAI_send_ok o http unmarshalErr unmarshal system messages respBody r hhttp hdec,
      openAIExtractContent_eq_head]
  · intro h
    simp [h]
  · intro ch rest h
    simp [h]

/-- C5, witness: a success body with an empty `choices` array gives a Response with empty
content, not an error. -/
theorem openAI_success_response_witness :
    demoOpenAI.Send (fun _ => .response StatusOK "body") (fun _ => .error "no envelope")
        (fun _ => .ok noChoicesBody) "" [] =
      .ok { Content := "", Model := "gpt-4o", InputTokens := 7, OutputTokens := 0 } :=
  (openAI_success_response demoOpenAI (fun _ => .response StatusOK "body")
    (fun _ => .error "no envelope") (fun _ => .ok noChoicesBody) "" [] "body" noChoicesBody
    rfl rfl).1

/-! ## Failure statuses -/

theorem contains_self (s : String) : Contains s s :=
  List.infix_refl _

theorem contains_append_left (s u t : String) (h : Contains s t) : Contains (s ++ u) t := by
  obtain ⟨a, b, hab⟩ := h
  exact ⟨a, b ++ u.data, by simp [String.data_append, ← hab]⟩

theorem contains_append_right (s u t : String) (h : Contains u t) : Contains (s ++ u) t := by
  obtain ⟨a, b, hab⟩ := h
  exact ⟨s.data ++ a, b, by simp [String.data_append, ← hab]⟩

theorem contains_envelope (t m : String) :
    Contains ("API error: " ++ t ++ " - " ++ m) t ∧
      Contains ("API error: " ++ t ++ " - " ++ m) m :=
  ⟨contains_append_left _ _ _
      (contains_append_left _ _ _ (contains_append_right _ _ _ (contains_self t))),
    contains_append_right _ _ _ (contains_self m)⟩

theorem contains_raw (status : Int) (body : String) :
    Contains ("API error (status " ++ toString status ++ "): " ++ body) (toString status) ∧
      Contains ("API error (status " ++ toString status ++ "): " ++ body) body :=
  ⟨contains_append_left _ _ _
      (contains_append_left _ _ _ (contains_append_right _ _ _ (contains_self _))),
    contains_append_right _ _ _ (contains_self body)⟩

theorem claude_send_failure (c : ClaudeProvider)
    (http : HTTPRequest claudeRequest → HTTPOutcome)
    (unmarshalErr : String → Except String claudeErrorResponse)
    (unmarshal : String → Except String claudeResponse)
    (system : String) (messages : List Message) (status : Int) (respBody : String)
    (hstatus : status ≠ StatusOK)
    (hhttp : http (c.httpRequest system messages) = .response status respBody) :
    c.Send http unmarshalErr unmarshal system messages =
      match unmarshalErr respBody with
      | .error _ => .error ("API error (status " ++ toString status ++ "): " ++ respBody)
      | .ok errResp =>
        .error ("API error: " ++ errResp.Error.Typ ++ " - " ++ errResp.Error.Message) := by
  simp [ClaudeProvider.Send, hhttp, hstatus]

theorem openAI_send_failure (o : OpenAIProvider)
    (http : HTTPRequest openAIRequest → HTTPOutcome)
    (unmarshalErr : String → Except String openAIErrorResponse)
    (unmarshal : String → Except String openAIResponse)
    (system : String) (messages : List Message) (status : Int) (respBody : String)
    (hstatus : status ≠ StatusOK)
    (hhttp : http (o.httpRequest system messages) = .response status respBody) :
    o.Send http unmarshalErr unmarshal system messages =
      match unmarshalErr respBody with
      | .error _ => .error ("API error (status " ++ toString status ++ "): " ++ respBody)
      | .ok errResp =>
        .error ("API error: " ++ errResp.Error.Typ ++ " - " ++ errResp.Error.Message) := by
  simp [OpenAIProvider.Send, hhttp, hstatus]

theorem ollama_send_failure (o : OllamaProvider)
    (http : HTTPRequest ollamaRequest → HTTPOutcome)
    (unmarshal : String → Except String ollamaResponse)
    (system : String) (messages : List Message) (status : Int) (respBody : String)
    (hstatus : status ≠ StatusOK)
    (hhttp : http (o.httpRequest system messages) = .response status respBody) :
    o.Send http unmarshal system messages =
      .error ("API error (status " ++ toString status ++ "): " ++ respBody) := by
  simp [OllamaProvider.Send, hhttp, hstatus]

/-- C6: for the Claude and the OpenAI adapter, when the round trip ends with a status the
adapter treats as a failure (any status other than `http.StatusOK`), the result is an
error and no Response. If the body parses as the error envelope, the error text contains
the type and the message of the envelope; if it does not parse, the error text contains
the status code in decimal and the raw body. -/
theorem failure_status_error_message (c : ClaudeProvider) (o : OpenAIProvider)
    (httpC : HTTPRequest claudeRequest → HTTPOutcome)
    (httpO : HTTPRequest openAIRequest → HTTPOutcome)
    (unmarshalErrC : String → Except String claudeErrorResponse)
    (unmarshalErrO : String → Except String openAIErrorResponse)
    (unmarshalC : String → Except String claudeResponse)
    (unmarshalO : String → Except String openAIResponse)
    (system : String) (messages : List Message) (status : Int) (respBody : String)
    (hstatus : status ≠ StatusOK)
    (hC : httpC (c.httpRequest system messages) = .response status respBody)
    (hO : httpO (o.httpRequest system messages) = .response status respBody) :
    (match unmarshalErrC respBody with
      | .ok envelope =>
        ∃ msg, c.Send httpC unmarshalErrC unmarshalC system messages = .error msg ∧
          Contains msg envelope.Error.Typ ∧ Contains msg envelope.Error.Message
      | .error _ =>
        ∃ msg, c.Send httpC unmarshalErrC unmarshalC system messages = .error msg ∧
          Contains msg (toString status) ∧ Contains msg respBody) ∧
    (match unmarshalErrO respBody with
      | .ok envelope =>
        ∃ msg, o.Send httpO unmarshalErrO unmarshalO system messages = .error msg ∧
          Contains msg envelope.Error.Typ ∧ Contains msg envelope.Error.Message
      | .error _ =>
        ∃ msg, o.Send httpO unmarshalErrO unmarshalO system messages = .error msg ∧
          Contains msg (toString status) ∧ Contains msg respBody) := by
  have hc := claude_send_failure c httpC unmarshalErrC unmarshalC system messages status
    respBody hstatus hC
  have ho := openAI_send_failure o httpO unmarshalErrO unmarshalO system messages status
    respBody hstatus hO
  constructor
  · cases hE : unmarshalErrC respBody with
    | error e =>
      rw [hE] at hc
      exact ⟨_, hc, contains_raw status respBody⟩
    | ok envelope =>
      rw [hE] at hc
      exact ⟨_, hc, contains_envelope _ _⟩
  · cases hE : unmarshalErrO respBody with
    | error e =>
      rw [hE] at ho
      exact ⟨_, ho, contains_raw status respBody⟩
    | ok envelope =>
      rw [hE] at ho
      exact ⟨_, ho, contains_envelope _ _⟩

/-- C6, witness: status 500 with the body `oops`; the Claude decoder rejects the body, so
the error text contains `500` and `oops`; the OpenAI decoder yields the envelope with type
`t` and message `m`, so the error text contains both. -/
theorem failure_status_error_message_witness :
    (500 : Int) ≠ StatusOK ∧
      (∃ msg,
        demoClaude.Send (fun _ => .response 500 "oops") (fun _ => .error "invalid character")
            (fun _ => .ok hiBody) "" [] = .error msg ∧
          Contains msg (toString (500 : Int)) ∧ Contains msg "oops") ∧
      (∃ msg,
        demoOpenAI.Send (fun _ => .response 500 "oops") (fun _ => .ok demoOpenAIError)
            (fun _ => .ok noChoicesBody) "" [] = .error msg ∧
          Contains msg "t" ∧ Contains msg "m") :=
  ⟨by decide,
    failure_status_error_message demoClaude demoOpenAI (fun _ => .response 500 "oops")
      (fun _ => .response 500 "oops") (fun _ => .error "invalid character")
      (fun _ => .ok demoOpenAIError) (fun _ => .ok hiBody) (fun _ => .ok noChoicesBody)
      "" [] 500 "oops" (by decide) rfl rfl⟩

/-! ## Which statuses give a Response -/

/-- C7, counterexample: status 201 lies in 200..299 and the body is a well-formed success
body, yet the Claude adapter and the Ollama adapter both return an error. -/
theorem status_201_is_an_error :
    ((200 : Int) ≤ 201 ∧ (201 : Int) ≤ 299) ∧
      demoClaude.Send (fun _ => .response 201 "body") (fun _ => .ok emptyClaudeError)
          (fun _ => .ok hiBody) "" [] = .error "API error:  - " ∧
      demoOllama.Send (fun _ => .response 201 "body") (fun _ => .ok demoOllamaBody) "" [] =
        .error "API error (status 201): body" :=
  ⟨by decide, rfl, rfl⟩

/-- C7, amended: every adapter returns an error exactly when the HTTP status is not 200.
When the round trip ends with a status and a body, a well-formed success body gives a
Response if and only if the status is 200, and every other status, the other 2xx codes
included, gives an error whatever the body is. -/
theorem response_iff_status_ok (c : ClaudeProvider) (o : OpenAIProvider) (l : OllamaProvider)
    (httpC : HTTPRequest claudeRequest → HTTPOutcome)
    (httpO : HTTPRequest openAIRequest → HTTPOutcome)
    (httpL : HTTPRequest ollamaRequest → HTTPOutcome)
    (unmarshalErrC : String → Except String claudeErrorResponse)
    (unmarshalErrO : String → Except String openAIErrorResponse)
    (unmarshalC : String → Except String claudeResponse)
    (unmarshalO : String → Except String openAIResponse)
    (unmarshalL : String → Except String ollamaResponse)
    (system : String) (messages : List Message) (status : Int) (respBody : String)
    (hC : httpC (c.httpRequest system messages) = .response status respBody)
    (hO : httpO (o.httpRequest system messages) = .response status respBody)
    (hL : httpL (l.httpRequest system messages) = .response status respBody) :
    ((∀ r, unmarshalC respBody = .ok r →
        ((∃ resp, c.Send httpC unmarshalErrC unmarshalC system messages = .ok resp) ↔
          status = StatusOK)) ∧
      (status ≠ StatusOK →
        ∃ msg, c.Send httpC unmarshalErrC unmarshalC system messages = .error msg)) ∧
    ((∀ r, unmarshalO respBody = .ok r →
        ((∃ resp, o.Send httpO unmarshalErrO unmarshalO system messages = .ok resp) ↔
          status = StatusOK)) ∧
      (status ≠ StatusOK →
        ∃ msg, o.Send httpO unmarshalErrO unmarshalO system messages = .error msg)) ∧
    ((∀ r, unmarshalL respBody = .ok r →
        ((∃ resp, l.Send httpL unmarshalL system messages = .ok resp) ↔
          status = StatusOK)) ∧
      (status ≠ StatusOK →
        ∃ msg, l.Send httpL unmarshalL system messages = .error msg)) := by
  have failC : status ≠ StatusOK →
      ∃ msg, c.Send httpC unmarshalErrC unmarshalC system messages = .error msg := by
    intro hs
    rw [claude_send_failure c httpC unmarshalErrC unmarshalC system messages status respBody
      hs hC]
    cases unmarshalErrC respBody <;> exact ⟨_, rfl⟩
  have failO : status ≠ StatusOK →
      ∃ msg, o.Send httpO unmarshalErrO unmarshalO system messages = .error msg := by
    intro hs
    rw [openAI_send_failure o httpO unmarshalErrO unmarshalO system messages status respBody
      hs hO]
    cases unmarshalErrO respBody <;> exact ⟨_, rfl⟩
  have failL : status ≠ StatusOK →
      ∃ msg, l.Send httpL unmarshalL system messages = .error msg := by
    intro hs
    exact ⟨_, ollama_send_failure l httpL unmarshalL system messages status respBody hs hL⟩
  refine ⟨⟨?_, failC⟩, ⟨?_, failO⟩, ⟨?_, failL⟩⟩
  · intro r hr
    constructor
    · rintro ⟨resp, hresp⟩
      by_contra hs
      obtain ⟨msg, hmsg⟩ := failC hs
      rw [hmsg] at hresp
      cases hresp
    · intro hs
      subst hs
      exact ⟨_, claude_send_ok c httpC unmarshalErrC unmarshalC system messages respBody r
        hC hr⟩
  · intro r hr
    constructor
    · rintro ⟨resp, hresp⟩
      by_contra hs
      obtain ⟨msg, hmsg⟩ := failO hs
      rw [hmsg] at hresp
      cases hresp
    · intro hs
      subst hs
      exact ⟨_, openAI_send_ok o httpO unmarshalErrO unmarshalO system messages respBody r
        hO hr⟩
  · intro r hr
    constructor
    · rintro ⟨resp, hresp⟩
      by_contra hs
      obtain ⟨msg, hmsg⟩ := failL hs
      rw [hmsg] at hresp
      cases hresp
    · intro hs
      subst hs
      exact ⟨_, ollama_send_ok l httpL unmarshalL system messages respBody r hL hr⟩

/-- C7, witness: with status 204 and a body every decoder accepts, the three adapters each
return an error. -/
theorem response_iff_status_ok_witness :
    (∃ msg, demoClaude.Send (fun _ => .response 204 "body") (fun _ => .ok emptyClaudeError)
        (fun _ => .ok hiBody) "" [] = .error msg) ∧
      (∃ msg, demoOpenAI.Send (fun _ => .response 204 "body") (fun _ => .ok demoOpenAIError)
        (fun _ => .ok noChoicesBody) "" [] = .error msg) ∧
      (∃ msg, demoOllama.Send (fun _ => .response 204 "body") (fun _ => .ok demoOllamaBody)
        "" [] = .error msg) :=
  have h := response_iff_status_ok demoClaude demoOpenAI demoOllama
    (fun _ => .response 204 "body") (fun _ => .response 204 "body")
    (fun _ => .response 204 "body") (fun _ => .ok emptyClaudeError)
    (fun _ => .ok demoOpenAIError) (fun _ => .ok hiBody) (fun _ => .ok noChoicesBody)
    (fun _ => .ok demoOllamaBody) "" [] 204 "body" rfl rfl rfl
  ⟨h.1.2 (by decide), h.2.1.2 (by decide), h.2.2.2 (by decide)⟩

/-! ## Provider selection and the factory -/

/-- C9: `GetProvider` depends on the `provider` option only: it gives OpenAI exactly for
`openai`, `gpt` and `chatgpt`, Ollama exactly for `ollama` and `local`, and Claude for
every other string, the empty string and the spelling `OpenAI` among them. -/
theorem getProvider_aliases (a : AI) (p : String) :
    (({ a with Provider := p } : AI).GetProvider = ProviderOpenAI ↔
        p = "openai" ∨ p = "gpt" ∨ p = "chatgpt") ∧
      (({ a with Provider := p } : AI).GetProvider = ProviderOllama ↔
        p = "ollama" ∨ p = "local") ∧
      (({ a with Provider := p } : AI).GetProvider = ProviderClaude ↔
        ¬ (p = "openai" ∨ p = "gpt" ∨ p = "chatgpt") ∧ ¬ (p = "ollama" ∨ p = "local")) ∧
      ({ a with Provider := "" } : AI).GetProvider = ProviderClaude ∧
      ({ a with Provider := "OpenAI" } : AI).GetProvider = ProviderClaude := by
  refine ⟨?_, ?_, ?_, ?_, ?_⟩
  · unfold AI.GetProvider
    by_cases h1 : p = "openai" ∨ p = "gpt" ∨ p = "chatgpt"
    · simp [h1]
    · by_cases h2 : p = "ollama" ∨ p = "local" <;>
        simp [h1, h2, ProviderOpenAI, ProviderOllama, ProviderClaude]
  · unfold AI.GetProvider
    by_cases h1 : p = "openai" ∨ p = "gpt" ∨ p = "chatgpt"
    · rcases h1 with h | h | h <;>
        simp [h, ProviderOpenAI, ProviderOllama]
    · by_cases h2 : p = "ollama" ∨ p = "local" <;>
        simp [h1, h2, ProviderOpenAI, ProviderOllama, ProviderClaude]
  · unfold AI.GetProvider
    by_cases h1 : p = "openai" ∨ p = "gpt" ∨ p = "chatgpt"
    · simp [h1, ProviderOpenAI, ProviderClaude]
    · by_cases h2 : p = "ollama" ∨ p = "local" <;>
        simp [h1, h2, ProviderOpenAI, ProviderOllama, ProviderClaude]
  · simp [AI.GetProvider]
  · simp [AI.GetProvider]

/-- C10: `NewProvider` is a function of the descriptor. It returns an adapter if and only
if the type of the descriptor is `claude`, `openai` or `ollama`; for every other type it
returns the error naming the type and no adapter, in particular for the empty type; and
equal descriptors give equal results. -/
theorem newProvider_known_types (cfg : ProviderConfig) :
    ((∃ p, NewProvider cfg = .ok p) ↔
        cfg.Typ = "claude" ∨ cfg.Typ = "openai" ∨ cfg.Typ = "ollama") ∧
      (NewProvider cfg = .error ("unknown provider type: " ++ cfg.Typ) ↔
        ¬ (cfg.Typ = "claude" ∨ cfg.Typ = "openai" ∨ cfg.Typ = "ollama")) ∧
      NewProvider { cfg with Typ := "" } = .error "unknown provider type: " ∧
      (∀ cfg2 : ProviderConfig, cfg = cfg2 → NewProvider cfg = NewProvider cfg2) := by
  refine ⟨?_, ?_, ?_, ?_⟩
  · unfold NewProvider
    by_cases h1 : cfg.Typ = "claude"
    · simp [h1, ProviderClaude]
    · by_cases h2 : cfg.Typ = "openai"
      · simp [h2, ProviderClaude, ProviderOpenAI]
      · by_cases h3 : cfg.Typ = "ollama"
        · simp [h3, ProviderClaude, ProviderOpenAI, ProviderOllama]
        · simp [h1, h2, h3, ProviderClaude, ProviderOpenAI, ProviderOllama]
  · unfold NewProvider
    by_cases h1 : cfg.Typ = "claude"
    · simp [h1, ProviderClaude]
    · by_cases h2 : cfg.Typ = "openai"
      · simp [h2, ProviderClaude, ProviderOpenAI]
      · by_cases h3 : cfg.Typ = "ollama"
        · simp [h3, ProviderClaude, ProviderOpenAI, ProviderOllama]
        · simp [h1, h2, h3, ProviderClaude, ProviderOpenAI, ProviderOllama]
  · simp [NewProvider, ProviderClaude, ProviderOpenAI, ProviderOllama]
  · intro cfg2 h
    rw [h]

/-- C8: `CreateProvider` returns the adapter variant selected by the `provider` option,
with the defaults applied: the model is the configured one when non-empty and otherwise
the default of the variant; `maxTokens` (a field of the Claude and OpenAI adapters, the
Ollama adapter has none) is the configured value when positive and otherwise 4096; the
Ollama base URL is the configured one when non-empty and otherwise the local default.
With every other option unset, provider `gpt` gives an OpenAI adapter with model `gpt-4o`,
the empty provider a Claude adapter with model `claude-sonnet-4-20250514`, and provider
`local` an Ollama adapter with base URL `http://localhost:11434`. -/
theorem createProvider_defaults (a : AI) (env : Env) :
    a.CreateProvider env =
        .ok
          (if a.Provider = "openai" ∨ a.Provider = "gpt" ∨ a.Provider = "chatgpt" then
            .openAI
              { apiKey := a.GetAPIKey env
                model := if a.Model ≠ "" then a.Model else "gpt-4o"
                maxTokens := if a.MaxTokens > 0 then a.MaxTokens else 4096
                baseURL :=
                  if a.BaseURL ≠ "" then a.BaseURL
                  else "https://api.openai.com/v1/chat/completions"
                httpClient := { Timeout := 60 } }
          else if a.Provider = "ollama" ∨ a.Provider = "local" then
            .ollama
              { model := if a.Model ≠ "" then a.Model else "llama3.2"
                baseURL := if a.BaseURL ≠ "" then a.BaseURL else "http://localhost:11434"
                httpClient := { Timeout := 120 } }
          else
            .claude
              { apiKey := a.GetAPIKey env
                model := if a.Model ≠ "" then a.Model else "claude-sonnet-4-20250514"
                maxTokens := if a.MaxTokens > 0 then a.MaxTokens else 4096
                httpClient := { Timeout := 60 } }) ∧
      (∃ p, ({ NewAI with Provider := "gpt" } : AI).CreateProvider env = .ok (.openAI p) ∧
        p.model = "gpt-4o") ∧
      (∃ p, ({ NewAI with Provider := "" } : AI).CreateProvider env = .ok (.claude p) ∧
        p.model = "claude-sonnet-4-20250514") ∧
      (∃ p, ({ NewAI with Provider := "local" } : AI).CreateProvider env = .ok (.ollama p) ∧
        p.baseURL = "http://localhost:11434") := by
  have hmax : ¬ ((if a.MaxTokens > 0 then a.MaxTokens else 4096) ≤ 0) := by
    split_ifs with h <;> omega
  refine ⟨?_, ?_, ?_, ?_⟩
  · unfold AI.CreateProvider NewProvider AI.GetModel AI.GetMaxTokens AI.GetBaseURL
      AI.GetProvider
    by_cases h1 : a.Provider = "openai" ∨ a.Provider = "gpt" ∨ a.Provider = "chatgpt"
    · by_cases hm : a.Model = "" <;> by_cases hb : a.BaseURL = "" <;>
        simp [h1, hm, hb, hmax, NewOpenAIProvider, ProviderClaude, ProviderOpenAI,
          DefaultOpenAIModel, DefaultMaxTokens, openAIAPIURL, defaultTimeout]
    · by_cases h2 : a.Provider = "ollama" ∨ a.Provider = "local"
      · by_cases hm : a.Model = "" <;> by_cases hb : a.BaseURL = "" <;>
          simp [h1, h2, hm, hb, NewOllamaProvider, ProviderClaude, ProviderOpenAI,
            ProviderOllama, DefaultOllamaModel, DefaultOllamaURL, defaultTimeout]
      · by_cases hm : a.Model = "" <;>
          simp [h1, h2, hm, hmax, NewClaudeProvider, ProviderClaude, ProviderOpenAI,
            ProviderOllama, DefaultClaudeModel, DefaultMaxTokens, defaultTimeout]
  · exact ⟨_, rfl, rfl⟩
  · exact ⟨_, rfl, rfl⟩
  · exact ⟨_, rfl, rfl⟩

/-! ## The chat session -/

theorem runUpdates_append (content : String) (c : AIChat) :
    (runUpdates [.appendAssistant content] c).messages =
      c.messages ++ [{ Role := "assistant", Content := content }] := rfl

theorem runUpdates_thinking_append (content : String) (c : AIChat) :
    (runUpdates [.thinking, .appendAssistant content] c).messages =
      c.messages ++ [{ Role := "assistant", Content := content }] := rfl

theorem provider_name_cases (p : Provider) :
    p.Name = "Claude" ∨ p.Name = "OpenAI" ∨ p.Name = "Ollama" := by
  cases p with
  | claude q => exact Or.inl rfl
  | openAI q => exact Or.inr (Or.inl rfl)
  | ollama q => exact Or.inr (Or.inr rfl)

theorem update_apply_keeps_adapter (u : Update) (c : AIChat) :
    (u.apply c).provider = c.provider ∧ (u.apply c).providerName = c.providerName ∧
      (u.apply c).k8sContext = c.k8sContext := by
  cases u <;> exact ⟨rfl, rfl, rfl⟩

theorem runUpdates_keeps_adapter (updates : List Update) (c : AIChat) :
    (runUpdates updates c).provider = c.provider ∧
      (runUpdates updates c).providerName = c.providerName ∧
      (runUpdates updates c).k8sContext = c.k8sContext := by
  induction updates generalizing c with
  | nil => exact ⟨rfl, rfl, rfl⟩
  | cons u rest ih =>
    obtain ⟨h1, h2, h3⟩ := ih (u.apply c)
    obtain ⟨g1, g2, g3⟩ := update_apply_keeps_adapter u c
    exact ⟨h1.trans g1, h2.trans g2, h3.trans g3⟩

theorem createProvider_ok (cfg : AI) (env : Env) :
    ∃ p, cfg.CreateProvider env = .ok p ∧
      (p.Name = "Claude" ∨ p.Name = "OpenAI" ∨ p.Name = "Ollama") := by
  have key : ∃ p, cfg.CreateProvider env = .ok p := by
    unfold AI.CreateProvider NewProvider
    rcases getProvider_cases cfg with h | h | h
    · simp [h, ProviderClaude, ProviderOpenAI]
    · simp [h, ProviderClaude, ProviderOpenAI, ProviderOllama]
    · simp [h]
  obtain ⟨p, hp⟩ := key
  exact ⟨p, hp, provider_name_cases p⟩

theorem session_provider (c0 : AIChat) (cfg0 : AI) (env0 : Env) (messages : List Message)
    (chatHistory : String) :
    ∃ p, cfg0.CreateProvider env0 = .ok p ∧
      (c0.session cfg0 env0 messages chatHistory).provider = some p ∧
      (c0.session cfg0 env0 messages chatHistory).providerName = p.Name := by
  obtain ⟨p, hp, _⟩ := createProvider_ok cfg0 env0
  exact ⟨p, hp, by simp [AIChat.session, AIChat.Init, hp], by
    simp [AIChat.session, AIChat.Init, hp]⟩

theorem sendMessage_missing_key (c : AIChat) (p : Provider) (cfg : AI) (env : Env)
    (build : K8sContext → Except String String) (w : Backend)
    (hp : c.provider = some p) (hcloud : cfg.GetProvider ≠ ProviderOllama)
    (hkey : cfg.GetAPIKey env = "") :
    c.sendMessage cfg env build w =
      { updates := [.appendAssistant ("[red]Error: API key not configured. " ++
          (if cfg.GetProvider = ProviderOpenAI then
            "Use ':ai set-key <key>' or set OPENAI_API_KEY"
          else "Use ':ai set-key <key>' or set ANTHROPIC_API_KEY"))]
        sendCalls := [] } := by
  simp [AIChat.sendMessage, hp, hcloud, hkey]

theorem hint_contains_command :
    Contains "Use ':ai set-key <key>' or set OPENAI_API_KEY" ":ai set-key <key>" ∧
      Contains "Use ':ai set-key <key>' or set ANTHROPIC_API_KEY" ":ai set-key <key>" ∧
      Contains "Use ':ai set-key <key>' or set OPENAI_API_KEY" "OPENAI_API_KEY" ∧
      Contains "Use ':ai set-key <key>' or set ANTHROPIC_API_KEY" "ANTHROPIC_API_KEY" := by
  refine ⟨?_, ?_, ?_, ?_⟩
  · exact ⟨"Use '".data, "' or set OPENAI_API_KEY".data, by decide⟩
  · exact ⟨"Use '".data, "' or set ANTHROPIC_API_KEY".data, by decide⟩
  · exact ⟨"Use ':ai set-key <key>' or set ".data, [], by decide⟩
  · exact ⟨"Use ':ai set-key <key>' or set ".data, [], by decide⟩

/-- C11: in every session, when the configured provider is Claude or OpenAI and the
resolved API key is empty, one run of `sendMessage` queues exactly one update, which
appends one assistant entry to the transcript; the text of the entry contains the command
`:ai set-key <key>` and the fallback variable of the provider, `ANTHROPIC_API_KEY` for
Claude and `OPENAI_API_KEY` for OpenAI; and `Send` of the adapter is not called. -/
theorem missing_key_names_fallback (c0 : AIChat) (cfg0 : AI) (env0 : Env)
    (messages : List Message) (chatHistory : String) (cfg : AI) (env : Env)
    (build : K8sContext → Except String String) (w : Backend)
    (hcloud : cfg.GetProvider = ProviderClaude ∨ cfg.GetProvider = ProviderOpenAI)
    (hkey : cfg.GetAPIKey env = "") :
    ∃ content,
      ((c0.session cfg0 env0 messages chatHistory).sendMessage cfg env build w).updates =
          [.appendAssistant content] ∧
        ((c0.session cfg0 env0 messages chatHistory).sendMessage cfg env build w).sendCalls =
          [] ∧
        (∀ c2 : AIChat,
          (runUpdates
              ((c0.session cfg0 env0 messages chatHistory).sendMessage cfg env build
                w).updates c2).messages =
            c2.messages ++ [{ Role := "assistant", Content := content }]) ∧
        Contains content ":ai set-key <key>" ∧
        (cfg.GetProvider = ProviderClaude → Contains content "ANTHROPIC_API_KEY") ∧
        (cfg.GetProvider = ProviderOpenAI → Contains content "OPENAI_API_KEY") := by
  obtain ⟨p, _, hp, _⟩ := session_provider c0 cfg0 env0 messages chatHistory
  have hne : cfg.GetProvider ≠ ProviderOllama := by
    rcases hcloud with h | h <;> rw [h] <;> decide
  rw [sendMessage_missing_key _ p cfg env build w hp hne hkey]
  obtain ⟨h1, h2, h3, h4⟩ := hint_contains_command
  refine ⟨_, rfl, rfl, fun c2 => rfl, ?_, ?_, ?_⟩
  · by_cases h : cfg.GetProvider = ProviderOpenAI
    · simp only [h, if_true]
      exact contains_append_right _ _ _ h1
    · simp only [h, if_false]
      exact contains_append_right _ _ _ h2
  · intro h
    have hno : ¬ cfg.GetProvider = ProviderOpenAI := by rw [h]; decide
    simp only [hno, if_false]
    exact contains_append_right _ _ _ h4
  · intro h
    simp only [h, if_true]
    exact contains_append_right _ _ _ h3

/-- C11, witness: a session opened with the default configuration, provider Claude, no key
and an empty environment; the send queues one entry naming `ANTHROPIC_API_KEY` and calls
no adapter. -/
theorem missing_key_names_fallback_witness :
    ∃ content,
      ((demoChat.session NewAI emptyEnv demoChat.messages "").sendMessage NewAI emptyEnv
          demoBuild demoBackend).updates = [.appendAssistant content] ∧
        ((demoChat.session NewAI emptyEnv demoChat.messages "").sendMessage NewAI emptyEnv
          demoBuild demoBackend).sendCalls = [] ∧
        Contains content "ANTHROPIC_API_KEY" :=
  let ⟨content, hu, hs, _, _, hA, _⟩ :=
    missing_key_names_fallback demoChat NewAI emptyEnv demoChat.messages "" NewAI emptyEnv
      demoBuild demoBackend (Or.inl rfl) rfl
  ⟨content, hu, hs, hA rfl⟩

/-- C12: for every state of the view and every outcome of the collaborators, the updates
one run of `sendMessage` queues append exactly one assistant entry at the end of the
transcript they are applied to and leave the earlier entries as they are. When the adapter
returns a Response the content of the entry is the content of the Response, and when it
returns an error the content of the entry contains the text of the error. -/
theorem send_appends_one_entry (c : AIChat) (cfg : AI) (env : Env)
    (build : K8sContext → Except String String) (w : Backend) :
    ∃ content,
      (∀ c2 : AIChat,
        (runUpdates (c.sendMessage cfg env build w).updates c2).messages =
          c2.messages ++ [{ Role := "assistant", Content := content }]) ∧
      (∀ p systemPrompt resp, c.provider = some p →
        ¬ (cfg.GetProvider ≠ ProviderOllama ∧ cfg.GetAPIKey env = "") →
        build c.k8sContext = .ok systemPrompt →
        p.Send w systemPrompt c.messages = .ok resp → content = resp.Content) ∧
      (∀ p systemPrompt err, c.provider = some p →
        ¬ (cfg.GetProvider ≠ ProviderOllama ∧ cfg.GetAPIKey env = "") →
        build c.k8sContext = .ok systemPrompt →
        p.Send w systemPrompt c.messages = .error err → Contains content err) := by
  cases hprov : c.provider with
  | none =>
    refine ⟨"[red]Error: Failed to initialize AI provider. Check your configuration.",
      ?_, ?_, ?_⟩
    · intro c2
      simp only [AIChat.sendMessage, hprov]
      rfl
    · intro p systemPrompt resp h
      cases h
    · intro p systemPrompt err h
      cases h
  | some q =>
    by_cases hkey : cfg.GetProvider ≠ ProviderOllama ∧ cfg.GetAPIKey env = ""
    · refine ⟨"[red]Error: API key not configured. " ++
          (if cfg.GetProvider = ProviderOpenAI then
            "Use ':ai set-key <key>' or set OPENAI_API_KEY"
          else "Use ':ai set-key <key>' or set ANTHROPIC_API_KEY"), ?_, ?_, ?_⟩
      · intro c2
        rw [sendMessage_missing_key c q cfg env build w hprov hkey.1 hkey.2]
        rfl
      · intro p systemPrompt resp _ h
        exact absurd hkey h
      · intro p systemPrompt err _ h
        exact absurd hkey h
    · cases hbuild : build c.k8sContext with
      | error e =>
        refine ⟨"[red]Error building prompt: " ++ e, ?_, ?_, ?_⟩
        · intro c2
          simp only [AIChat.sendMessage, hprov, hkey, hbuild, if_false]
          rfl
        · intro p systemPrompt resp _ _ h
          cases h
        · intro p systemPrompt err _ _ h
          cases h
      | ok sys =>
        cases hsend : q.Send w sys c.messages with
        | error e =>
          refine ⟨"[red]Error: " ++ e, ?_, ?_, ?_⟩
          · intro c2
            simp only [AIChat.sendMessage, hprov, hkey, hbuild, hsend, if_false]
            rfl
          · intro p systemPrompt resp h1 _ h2 h3
            cases h1
            cases h2
            rw [hsend] at h3
            cases h3
          · intro p systemPrompt err h1 _ h2 h3
            cases h1
            cases h2
            rw [hsend] at h3
            cases h3
            exact contains_append_right _ _ _ (contains_self _)
        | ok r =>
          refine ⟨r.Content, ?_, ?_, ?_⟩
          · intro c2
            simp only [AIChat.sendMessage, hprov, hkey, hbuild, hsend, if_false]
            rfl
          · intro p systemPrompt resp h1 _ h2 h3
            cases h1
            cases h2
            rw [hsend] at h3
            cases h3
            rfl
          · intro p systemPrompt err h1 _ h2 h3
            cases h1
            cases h2
            rw [hsend] at h3
            cases h3

/-- C13, counterexample: the text of one space is blank, yet `BufferCompleted` appends
the user entry holding it to the transcript and starts a send. -/
theorem bufferCompleted_takes_whitespace :
    isBlank " " = true ∧
      (demoChat.BufferCompleted " ").chat.messages =
        demoChat.messages ++ [{ Role := "user", Content := " " }] ∧
      (demoChat.BufferCompleted " ").chat.messages ≠ demoChat.messages ∧
      (demoChat.BufferCompleted " ").sends = 1 := by
  refine ⟨by decide, rfl, by decide, rfl⟩

/-- C13, amended: `BufferCompleted` leaves the view as it is and starts no send when the
text is the empty string; for every other text, whitespace included, it appends exactly
the entry with role `user` and that text at the end of the transcript, leaves the earlier
entries, the adapter and the provider name as they are, and starts one send. -/
theorem bufferCompleted_appends_user_turn (c : AIChat) (text : String) :
    c.BufferCompleted "" = { chat := c, sends := 0 } ∧
      (text ≠ "" →
        (c.BufferCompleted text).chat.messages =
            c.messages ++ [{ Role := "user", Content := text }] ∧
          (c.BufferCompleted text).sends = 1 ∧
          (c.BufferCompleted text).chat.provider = c.provider ∧
          (c.BufferCompleted text).chat.providerName = c.providerName) := by
  refine ⟨rfl, ?_⟩
  intro h
  simp [AIChat.BufferCompleted, h, AIChat.updateChatDisplay]

/-- C14: `clearCmd` gives a view with an empty transcript and empty displayed text,
whatever they were before; the adapter, the provider name and the prompt context are as
before, and clearing twice gives the same view as clearing once. -/
theorem clearCmd_empties_transcript (c : AIChat) :
    c.clearCmd.messages = [] ∧ c.clearCmd.chatHistory = "" ∧
      c.clearCmd.provider = c.provider ∧ c.clearCmd.providerName = c.providerName ∧
      c.clearCmd.k8sContext = c.k8sContext ∧ c.clearCmd.clearCmd = c.clearCmd :=
  ⟨rfl, rfl, rfl, rfl, rfl, rfl⟩

/-- C15, counterexample: with the configured base URL `https://example.com` the OpenAI
adapter posts to `https://example.com` itself, not to that base followed by
`/v1/chat/completions`. -/
theorem openAI_base_is_whole_url :
    ((NewOpenAIProvider "key" "" 0 "https://example.com").httpRequest "" []).URL =
        "https://example.com" ∧
      ((NewOpenAIProvider "key" "" 0 "https://example.com").httpRequest "" []).URL ≠
        "https://example.com" ++ "/v1/chat/completions" := by
  refine ⟨rfl, by decide⟩

/-- C15, amended: the OpenAI adapter posts to an overridable URL: with an empty configured
base URL the request URL is `https://api.openai.com/v1/chat/completions`, and for every
non-empty configured base URL the request URL is that value itself, with no path added. -/
theorem openAI_request_url (apiKey model : String) (maxTokens : Int) (b system : String)
    (messages : List Message) :
    ((NewOpenAIProvider apiKey model maxTokens b).httpRequest system messages).Method =
        "POST" ∧
      ((NewOpenAIProvider apiKey model maxTokens b).httpRequest system messages).URL =
        (if b = "" then "https://api.openai.com" ++ "/v1/chat/completions" else b) := by
  refine ⟨rfl, ?_⟩
  by_cases h : b = ""
  · subst h
    rfl
  · simp [OpenAIProvider.httpRequest, NewOpenAIProvider, h]

/-- C17: for every configuration `GetProvider` yields one of the three types `NewProvider`
accepts, so `CreateProvider` returns an adapter and no error, and the name of the adapter
is `Claude`, `OpenAI` or `Ollama`. Hence every session initialised from the configuration
holds that adapter and its name, and a send in it never takes the branch that reports the
failed initialisation: what it queues is never the single entry of that branch. -/
theorem createProvider_never_fails (cfg : AI) (env : Env) :
    (cfg.GetProvider = ProviderClaude ∨ cfg.GetProvider = ProviderOpenAI ∨
        cfg.GetProvider = ProviderOllama) ∧
      ∃ p, cfg.CreateProvider env = .ok p ∧
        (p.Name = "Claude" ∨ p.Name = "OpenAI" ∨ p.Name = "Ollama") ∧
        ∀ (c0 : AIChat) (messages : List Message) (chatHistory : String),
          (c0.session cfg env messages chatHistory).provider = some p ∧
            (c0.session cfg env messages chatHistory).providerName = p.Name ∧
            ∀ (cfg2 : AI) (env2 : Env) (build : K8sContext → Except String String)
              (w : Backend),
              ((c0.session cfg env messages chatHistory).sendMessage cfg2 env2 build
                w).updates ≠ [.appendAssistant failedInitText] := by
  constructor
  · rcases getProvider_cases cfg with h | h | h
    · exact Or.inr (Or.inl h)
    · exact Or.inr (Or.inr h)
    · exact Or.inl h
  · obtain ⟨p, hp, hname⟩ := createProvider_ok cfg env
    refine ⟨p, hp, hname, ?_⟩
    intro c0 messages chatHistory
    obtain ⟨q, hq, hprov, hn⟩ := session_provider c0 cfg env messages chatHistory
    rw [hp] at hq
    cases hq
    refine ⟨hprov, hn, ?_⟩
    intro cfg2 env2 build w
    by_cases hkey : cfg2.GetProvider ≠ ProviderOllama ∧ cfg2.GetAPIKey env2 = ""
    · rw [sendMessage_missing_key _ p cfg2 env2 build w hprov hkey.1 hkey.2]
      by_cases ho : cfg2.GetProvider = ProviderOpenAI
      · simp only [ho, if_true]
        decide
      · simp only [ho, if_false]
        decide
    · cases hbuild : build (c0.session cfg env messages chatHistory).k8sContext with
      | error e =>
        simp [AIChat.sendMessage, hprov, hkey, hbuild]
      | ok sys =>
        cases hsend : p.Send w sys (c0.session cfg env messages chatHistory).messages with
        | error e => simp [AIChat.sendMessage, hprov, hkey, hbuild, hsend]
        | ok r => simp [AIChat.sendMessage, hprov, hkey, hbuild, hsend]

end C9s
